import Mathlib

/-
Verification of the REST call layer of the batch_apps client
(BatchApplications.Client/batch_apps/rest_client.py).

The Python module is shallowly embedded below.  Stateful or effectful
pieces are made explicit:
  * the transport session (`auth.get_session()` + `session.request(...)`)
    is a parameter `transport : Except TransportExc Response` giving the
    outcome of the single HTTP exchange the dispatcher performs;
  * exceptions become `Except` values; a raised exception that a wrapper
    does not catch escapes as a `PyErr.raw` value, while exceptions the
    wrapper converts become `PyErr.rest` values carrying the module's
    typed `RestCallException`;
  * the filesystem touched by `download` is an association list from
    path to byte contents, and the embedding of `download` additionally
    returns the final filesystem and the number of network requests it
    issued.
-/

set_option autoImplicit false
set_option linter.unusedVariables false

namespace RestClient

/-- Python exception classes that appear in rest_client.py, either raised by
library calls inside the wrappers or used as the first argument of
`RestCallException`. -/
inductive PyExcType
  | ValueError
  | TypeError
  | KeyError
  | IndexError
  | OSError
  | AttributeError
  | AuthenticationException
  | RequestException
  | OAuth2Error
  deriving Repr, DecidableEq

/-- Transport-level HTTP response, as consumed by the module: status code,
headers, decoded text body, originating url, and the chunk sequence that
`iter_content(block_size)` yields for a streaming response. -/
structure Response where
  status_code : Nat
  headers : List (String × String)
  text : String
  url : String
  chunks : List (List Nat)
  deriving Repr, DecidableEq

/-- Third positional argument of `RestCallException`: either the raw response
or the originating exception object (represented by its class). -/
inductive CallCause
  | resp (r : Response)
  | exc (t : PyExcType)
  deriving Repr, DecidableEq

/-- Embeds `batch_apps.exceptions.RestCallException(type, msg, cause, silent=False)`:
the single typed failure of the module, carrying the error-kind classifier
(an exception class, or Python `None` in the 403 branch), a human readable
message, the original cause and the silent flag. -/
structure RestCallException where
  excType : Option PyExcType
  msg : String
  cause : CallCause
  silent : Bool
  deriving Repr, DecidableEq

/-- Exceptions raised by the transport layer inside `_call`'s try block:
`requests.RequestException` and `oauth2.rfc6749.errors.OAuth2Error`, each
carrying the detail text of the original exception. -/
inductive TransportExc
  | requestException (detail : String)
  | oauth2Error (detail : String)
  deriving Repr, DecidableEq

/-- Exception class of a transport exception, as `type(exp)` yields it. -/
def TransportExc.toType : TransportExc → PyExcType
  | .requestException _ => .RequestException
  | .oauth2Error _ => .OAuth2Error

/-- Detail string of a transport exception, as `str(exp)` yields it. -/
def TransportExc.detail : TransportExc → String
  | .requestException d => d
  | .oauth2Error d => d

/-- Class name of a transport exception (the embedding abbreviates Python's
`type(exp)` repr to the plain class name). -/
def TransportExc.typeName : TransportExc → String
  | .requestException _ => "RequestException"
  | .oauth2Error _ => "OAuth2Error"

/-- Message of the 400 branch of `_call`. -/
def msg400 (resp : Response) : String :=
  "Invalid API request. Some of the supplied data is incorrect or malformed.\nStatus "
    ++ toString resp.status_code ++ ".\nServer: " ++ resp.text

/-- Message of the 401 branch of `_call`. -/
def msg401 : String :=
  "Authentication for this call failed, please check your credentials"

/-- Message of the 403 branch of `_call`. -/
def msg403 (resp : Response) : String :=
  "API call non-applicable.\nServer: " ++ resp.text

/-- Message of the 404 branch of `_call`. -/
def msg404 (resp : Response) : String :=
  "Invalid endpoint or api call. Failed with status "
    ++ toString resp.status_code ++ ".\nUrl: " ++ resp.url

/-- Message of the catch-all status branch of `_call`. -/
def msgOther (resp : Response) : String :=
  "Call failed with status: " ++ toString resp.status_code

/-- Message of the transport-exception branch of `_call`. -/
def msgTransport (e : TransportExc) : String :=
  "An " ++ e.typeName ++ " error occurred: " ++ e.detail

/-- Embeds `_call` of rest_client.py.  The session acquisition, adapter
mounting and the request itself are summarised by the `transport` outcome;
the function then reproduces the except-branch (transport exceptions wrapped
into `RestCallException`) and the status-code dispatch of the else-branch
verbatim. -/
def call (transport : Except TransportExc Response) : Except RestCallException Response :=
  match transport with
  | .error e => .error ⟨some e.toType, msgTransport e, .exc e.toType, false⟩
  | .ok resp =>
    if resp.status_code = 200 ∨ resp.status_code = 202 then
      .ok resp
    else if resp.status_code = 400 then
      .error ⟨some .ValueError, msg400 resp, .resp resp, false⟩
    else if resp.status_code = 401 then
      .error ⟨some .AuthenticationException, msg401, .resp resp, false⟩
    else if resp.status_code = 403 then
      .error ⟨none, msg403 resp, .resp resp, true⟩
    else if resp.status_code = 404 then
      .error ⟨some .OSError, msg404 resp, .resp resp, false⟩
    else
      .error ⟨some .ValueError, msgOther resp, .resp resp, false⟩

/-- Opening brace character, written via its code point. -/
def lbraceChar : Char := Char.ofNat 123

/-- Closing brace character, written via its code point. -/
def rbraceChar : Char := Char.ofNat 125

/-- Key of the only replacement field the module ever supplies:
`url.format(name=...)`. -/
def nameFieldKey : String := "name"

/-- Header key stripped by `put`. -/
def contentTypeKey : String := "Content-Type"

/-- Header key read by `head`. -/
def contentLengthKey : String := "content-length"

/-- Message of the KeyError clause of `head`. -/
def headKeyErrorMsg : String := "No content-length key in response headers."

/-- Message of the IndexError clauses of `head` and `put`. -/
def malformedUrlMsg : String := "Incorrectly formatted url supplied."

/-- Scans a replacement-field name up to the closing brace; `none` when the
closing brace is missing (Python raises ValueError for an unterminated
field). -/
def takeField : List Char → List Char → Option (List Char × List Char)
  | [], _ => none
  | c :: rest, acc =>
    if c = rbraceChar then some (acc.reverse, rest)
    else takeField rest (c :: acc)

/-- Resolution of one replacement field when `format` is called with the
single keyword argument `name`: an empty or all-digit field is a positional
reference and raises IndexError since no positional arguments are supplied;
the field `name` substitutes the value; any other field name raises
KeyError. -/
def resolveField (field : List Char) (value : List Char) : Except PyExcType (List Char) :=
  if field.isEmpty ∨ field.all Char.isDigit then .error PyExcType.IndexError
  else if field = nameFieldKey.toList then .ok value
  else .error PyExcType.KeyError

/-- Core of the `str.format` model, fuelled by the remaining input length
(each step consumes at least one character, so the initial fuel
`length + 1` never runs out).  A lone opening or closing brace raises
ValueError; doubled braces are literals. -/
def pyFormatCore : Nat → List Char → List Char → Except PyExcType (List Char)
  | 0, _, _ => .error PyExcType.ValueError
  | _ + 1, [], _ => .ok []
  | fuel + 1, c :: rest, v =>
    if c = lbraceChar then
      match rest with
      | [] => .error PyExcType.ValueError
      | c2 :: rest2 =>
        if c2 = lbraceChar then
          (pyFormatCore fuel rest2 v).map (fun s => lbraceChar :: s)
        else
          match takeField (c2 :: rest2) [] with
          | none => .error PyExcType.ValueError
          | some (field, rest3) =>
            match resolveField field v with
            | .error t => .error t
            | .ok repl => (pyFormatCore fuel rest3 v).map (fun s => repl ++ s)
    else if c = rbraceChar then
      match rest with
      | [] => .error PyExcType.ValueError
      | c2 :: rest2 =>
        if c2 = rbraceChar then
          (pyFormatCore fuel rest2 v).map (fun s => rbraceChar :: s)
        else .error PyExcType.ValueError
    else (pyFormatCore fuel rest v).map (fun s => c :: s)

/-- Embeds the Python expression `template.format(name=value)` as used by
`head`, `put` (and the upload/download url convention of the spec):
substitutes `value` for the `name` replacement field, raising KeyError for
an unknown field name, IndexError for a positional field and ValueError for
a malformed template. -/
def pyFormatName (template : String) (value : String) : Except PyExcType String :=
  (pyFormatCore (template.length + 1) template.toList value.toList).map
    (fun cs => String.mk cs)

/-- Hexadecimal digit character for a value below 16. -/
def hexDigitChar (n : Nat) : Char :=
  if n < 10 then Char.ofNat (48 + n) else Char.ofNat (55 + n)

/-- Characters a URL escaper leaves untouched. -/
def isUnreservedChar (c : Char) : Bool :=
  c.isAlphanum || c = '-' || c = '.' || c = '_' || c = '~'

/-- Percent-encoding of one character. -/
def escapeChar (c : Char) : List Char :=
  if isUnreservedChar c then [c]
  else ['%', hexDigitChar (c.toNat / 16), hexDigitChar (c.toNat % 16)]

/-- Modelled from the spec: `url_from_filename` lives in batch_apps/utils.py,
which is not under src/; section 6 of the spec describes it as URL-escaping
a user supplied filename for the `name` placeholder.  The model
percent-encodes every character outside the unreserved set. -/
def url_from_filename (filename : String) : String :=
  String.mk (filename.toList.map escapeChar).flatten

/-- Whitespace test used by the int model. -/
def isPySpace (c : Char) : Bool :=
  c = ' ' || c = '\t' || c = '\n' || c = '\r'

/-- Value of a digit run. -/
def digitsValue (ds : List Char) : Nat :=
  ds.foldl (fun a c => a * 10 + (c.toNat - 48)) 0

/-- Embeds Python `int(s)` on a string argument: optional surrounding
whitespace, an optional sign, then at least one decimal digit; any other
shape raises ValueError. -/
def pyInt (s : String) : Except PyExcType Int :=
  let cs := ((s.toList.dropWhile isPySpace).reverse.dropWhile isPySpace).reverse
  match cs with
  | '-' :: ds =>
    if ds ≠ [] ∧ ds.all Char.isDigit then .ok (-(digitsValue ds : Int))
    else .error PyExcType.ValueError
  | '+' :: ds =>
    if ds ≠ [] ∧ ds.all Char.isDigit then .ok (digitsValue ds)
    else .error PyExcType.ValueError
  | ds =>
    if ds ≠ [] ∧ ds.all Char.isDigit then .ok (digitsValue ds)
    else .error PyExcType.ValueError

/-- ASCII lowering of one character, modelling the case folding the requests
library applies to header keys. -/
def lowerChar (c : Char) : Char :=
  if 65 ≤ c.toNat && c.toNat ≤ 90 then Char.ofNat (c.toNat + 32) else c

/-- ASCII lowering of a string. -/
def lowerStr (s : String) : String :=
  String.mk (s.toList.map lowerChar)

/-- Lookup in a response-header mapping.  The requests library exposes
headers as a case-insensitive dict, so keys compare case-insensitively. -/
def lookupHeader : List (String × String) → String → Option String
  | [], _ => none
  | (k2, v) :: rest, k =>
    if lowerStr k2 = lowerStr k then some v else lookupHeader rest k

/-- Embeds Python `d.pop(key)` with no default argument: removes the binding
of `key`, or raises KeyError when the key is absent. -/
def dictPop : List (String × String) → String → Except PyExcType (List (String × String))
  | [], _ => .error PyExcType.KeyError
  | (k2, v) :: rest, k =>
    if k2 = k then .ok rest
    else (dictPop rest k).map (fun r => (k2, v) :: r)

/-- Outcome channel of a wrapper's try block: either the module's typed
`RestCallException`, or a raw Python exception that the wrapper's except
clauses do not convert and which therefore escapes to the caller. -/
inductive PyErr
  | rest (e : RestCallException)
  | raw (t : PyExcType)
  deriving Repr, DecidableEq

/-- Try-block body of `head`: template substitution of the escaped filename,
the dispatcher call, the content-length header lookup (KeyError when
absent) and its conversion with `int` (ValueError when non-numeric). -/
def headBody (transport : Except TransportExc Response) (url : String)
    (filename : String) : Except PyErr Int :=
  match pyFormatName url (url_from_filename filename) with
  | .error t => .error (.raw t)
  | .ok _u =>
    match call transport with
    | .error e => .error (.rest e)
    | .ok resp =>
      match lookupHeader resp.headers contentLengthKey with
      | none => .error (.raw PyExcType.KeyError)
      | some s =>
        match pyInt s with
        | .error t => .error (.raw t)
        | .ok n => .ok n

/-- Embeds `head` of rest_client.py: the try body above plus its except
clauses — `RestCallException` re-raised unchanged, `KeyError` converted to
the missing content-length failure, `IndexError` to the malformed-url
failure; any other exception escapes raw.  The headers argument is
forwarded to the request and plays no further role. -/
def head (transport : Except TransportExc Response) (url : String)
    (headers : List (String × String)) (filename : String) : Except PyErr Int :=
  match headers, headBody transport url filename with
  | _, .ok v => .ok v
  | _, .error (.rest e) => .error (.rest e)
  | _, .error (.raw PyExcType.KeyError) =>
      .error (.rest ⟨some PyExcType.KeyError, headKeyErrorMsg, .exc PyExcType.KeyError, false⟩)
  | _, .error (.raw PyExcType.IndexError) =>
      .error (.rest ⟨some PyExcType.IndexError, malformedUrlMsg, .exc PyExcType.IndexError, false⟩)
  | _, .error e => .error e

/-- Try-block body of `put`: template substitution of the escaped file name;
then `put_headers = dict(headers)` makes a copy and
`put_headers.pop("Content-Type")` strips the content type from that copy
(raising KeyError when the key is absent); then the dispatcher call.  Only
`userfile.name` is read from the userfile argument; the description and
file payload are forwarded to the request unchanged. -/
def putBody (transport : Except TransportExc Response) (url : String)
    (headers : List (String × String)) (userfileName : String) :
    Except PyErr Response :=
  match pyFormatName url (url_from_filename userfileName) with
  | .error t => .error (.raw t)
  | .ok _u =>
    match dictPop headers contentTypeKey with
    | .error t => .error (.raw t)
    | .ok _put_headers =>
      match call transport with
      | .error e => .error (.rest e)
      | .ok resp => .ok resp

/-- Embeds `put` of rest_client.py: the try body above plus its except
clauses — `RestCallException` re-raised, `IndexError` converted to the
malformed-url failure; any other exception (notably the KeyError from the
pop or from an unknown replacement field) escapes raw.  The second
component of the result is the caller's headers dict as it stands after the
call: `put` pops from the `dict(headers)` copy, so the original is returned
unchanged. -/
def put (transport : Except TransportExc Response) (url : String)
    (headers : List (String × String)) (userfileName : String)
    (description file_data : List (String × String)) :
    Except PyErr Response × List (String × String) :=
  (match description, file_data, putBody transport url headers userfileName with
   | _, _, .ok v => .ok v
   | _, _, .error (.rest e) => .error (.rest e)
   | _, _, .error (.raw PyExcType.IndexError) =>
       .error (.rest ⟨some PyExcType.IndexError, malformedUrlMsg, .exc PyExcType.IndexError, false⟩)
   | _, _, .error e => .error e,
   headers)

/-- JSON values, restricted to what the module's payloads use: null,
booleans, integers, strings, arrays and objects (no floating point
numbers). -/
inductive Json
  | null
  | bool (b : Bool)
  | num (n : Int)
  | str (s : String)
  | arr (xs : List Json)
  | obj (fields : List (String × Json))
  deriving Repr

/-- Quotation mark character, written via its code point. -/
def quoteChar : Char := Char.ofNat 34

/-- Backslash character, written via its code point. -/
def backslashChar : Char := Char.ofNat 92

/-- Escaping of one character inside a serialised JSON string literal. -/
def escapeJsonChar (c : Char) : List Char :=
  if c = quoteChar ∨ c = backslashChar then [backslashChar, c] else [c]

/-- Serialisation of a JSON string literal. -/
def dumpStr (s : String) : String :=
  String.mk (quoteChar :: (s.toList.map escapeJsonChar).flatten ++ [quoteChar])

mutual

/-- Modelled from the spec: serialisation as by `json.dumps` of the external
json library, with its default separators. -/
def Json.dump : Json → String
  | .null => "null"
  | .bool true => "true"
  | .bool false => "false"
  | .num n => toString n
  | .str s => dumpStr s
  | .arr xs => "[" ++ dumpElems xs ++ "]"
  | .obj fs => String.mk [lbraceChar] ++ dumpFields fs ++ String.mk [rbraceChar]

/-- Comma separated serialisation of array elements. -/
def dumpElems : List Json → String
  | [] => ""
  | [x] => Json.dump x
  | x :: y :: rest => Json.dump x ++ ", " ++ dumpElems (y :: rest)

/-- Comma separated serialisation of object members. -/
def dumpFields : List (String × Json) → String
  | [] => ""
  | [(k, x)] => dumpStr k ++ ": " ++ Json.dump x
  | (k, x) :: y :: rest => dumpStr k ++ ": " ++ Json.dump x ++ ", " ++ dumpFields (y :: rest)

end

/-- Whitespace skipper of the JSON parser. -/
def skipWs : List Char → List Char
  | [] => []
  | c :: rest =>
    if c = ' ' ∨ c = '\t' ∨ c = '\n' ∨ c = '\r' then skipWs rest else c :: rest

/-- Parses the body of a JSON string literal after the opening quote,
accepting the backslash escapes for quote, backslash and slash. -/
def parseStrBody : List Char → List Char → Except PyExcType (String × List Char)
  | [], _ => .error PyExcType.ValueError
  | c :: rest, acc =>
    if c = quoteChar then .ok (String.mk acc.reverse, rest)
    else if c = backslashChar then
      match rest with
      | [] => .error PyExcType.ValueError
      | e :: rest2 =>
        if e = quoteChar ∨ e = backslashChar ∨ e = '/' then parseStrBody rest2 (e :: acc)
        else .error PyExcType.ValueError
    else parseStrBody rest (c :: acc)

/-- Splits a leading run of decimal digits from the input. -/
def takeDigits : List Char → (List Char × List Char)
  | [] => ([], [])
  | c :: rest =>
    if c.isDigit then
      let (ds, r) := takeDigits rest
      (c :: ds, r)
    else ([], c :: rest)

/-- Rejects the float continuations the model does not support. -/
def numGuard (v : Json) (r : List Char) : Except PyExcType (Json × List Char) :=
  match r with
  | c :: _ =>
    if c = '.' ∨ c = 'e' ∨ c = 'E' then .error PyExcType.ValueError else .ok (v, r)
  | [] => .ok (v, r)

mutual

/-- Modelled from the spec: recursive-descent parser for the JSON subset of
the model, standing in for the external json decoder behind
`response.json()` and `json.loads`.  Fuelled by the input length: each
level of the descent consumes at least one character. -/
def parseVal : Nat → List Char → Except PyExcType (Json × List Char)
  | 0, _ => .error PyExcType.ValueError
  | fuel + 1, cs =>
    match skipWs cs with
    | [] => .error PyExcType.ValueError
    | c :: rest =>
      if c = quoteChar then
        match parseStrBody rest [] with
        | .error t => .error t
        | .ok (s, r) => .ok (.str s, r)
      else if c = '[' then
        match skipWs rest with
        | [] => .error PyExcType.ValueError
        | c2 :: r2 =>
          if c2 = ']' then .ok (.arr [], r2)
          else parseElems fuel (c2 :: r2) []
      else if c = lbraceChar then
        match skipWs rest with
        | [] => .error PyExcType.ValueError
        | c2 :: r2 =>
          if c2 = rbraceChar then .ok (.obj [], r2)
          else parseMembers fuel (c2 :: r2) []
      else if c = 'n' then
        match rest with
        | 'u' :: 'l' :: 'l' :: r => .ok (.null, r)
        | _ => .error PyExcType.ValueError
      else if c = 't' then
        match rest with
        | 'r' :: 'u' :: 'e' :: r => .ok (.bool true, r)
        | _ => .error PyExcType.ValueError
      else if c = 'f' then
        match rest with
        | 'a' :: 'l' :: 's' :: 'e' :: r => .ok (.bool false, r)
        | _ => .error PyExcType.ValueError
      else if c = '-' then
        match takeDigits rest with
        | ([], _) => .error PyExcType.ValueError
        | (ds, r) => numGuard (.num (-(digitsValue ds : Int))) r
      else if c.isDigit then
        match takeDigits (c :: rest) with
        | ([], _) => .error PyExcType.ValueError
        | (ds, r) => numGuard (.num (digitsValue ds)) r
      else .error PyExcType.ValueError

/-- Parses the remaining comma separated elements of a non-empty array. -/
def parseElems : Nat → List Char → List Json → Except PyExcType (Json × List Char)
  | 0, _, _ => .error PyExcType.ValueError
  | fuel + 1, cs, acc =>
    match parseVal fuel cs with
    | .error t => .error t
    | .ok (v, r) =>
      match skipWs r with
      | ',' :: r2 => parseElems fuel r2 (v :: acc)
      | ']' :: r2 => .ok (.arr (v :: acc).reverse, r2)
      | _ => .error PyExcType.ValueError

/-- Parses the remaining comma separated members of a non-empty object. -/
def parseMembers : Nat → List Char → List (String × Json) →
    Except PyExcType (Json × List Char)
  | 0, _, _ => .error PyExcType.ValueError
  | fuel + 1, cs, acc =>
    match skipWs cs with
    | [] => .error PyExcType.ValueError
    | c :: rest =>
      if c = quoteChar then
        match parseStrBody rest [] with
        | .error t => .error t
        | .ok (k, r) =>
          match skipWs r with
          | ':' :: r2 =>
            match parseVal fuel r2 with
            | .error t => .error t
            | .ok (v, r3) =>
              match skipWs r3 with
              | [] => .error PyExcType.ValueError
              | ',' :: r4 => parseMembers fuel r4 ((k, v) :: acc)
              | c5 :: r4 =>
                if c5 = rbraceChar then .ok (.obj ((k, v) :: acc).reverse, r4)
                else .error PyExcType.ValueError
          | _ => .error PyExcType.ValueError
      else .error PyExcType.ValueError

end

/-- Modelled from the spec: `json.loads` and `response.json()` of the
external json machinery — parses the full text as one JSON value, raising
ValueError (the superclass of JSONDecodeError) on empty or malformed
input. -/
def jsonLoads (s : String) : Except PyExcType Json :=
  match parseVal (s.length + 1) s.toList with
  | .error t => .error t
  | .ok (v, r) =>
    match skipWs r with
    | [] => .ok v
    | _ => .error PyExcType.ValueError

/-- Message of the ValueError clause of `get`. -/
def getDecodeMsg : String := "No json object to be decoded from GET call."

/-- Try-block body of `get`: the dispatcher call followed by
`response.json()`. -/
def getBody (transport : Except TransportExc Response) : Except PyErr Json :=
  match call transport with
  | .error e => .error (.rest e)
  | .ok resp =>
    match jsonLoads resp.text with
    | .error t => .error (.raw t)
    | .ok v => .ok v

/-- Embeds `get` of rest_client.py: the try body above plus its except
clauses — `RestCallException` re-raised unchanged, `ValueError` (the JSON
decode failure) converted to the typed decode failure.  Url, headers and
params are forwarded to the request and play no further role in the
model. -/
def get (transport : Except TransportExc Response) (url : String)
    (headers : List (String × String)) (params : List (String × String)) :
    Except PyErr Json :=
  match url, headers, params, getBody transport with
  | _, _, _, .ok v => .ok v
  | _, _, _, .error (.rest e) => .error (.rest e)
  | _, _, _, .error (.raw PyExcType.ValueError) =>
      .error (.rest ⟨some PyExcType.ValueError, getDecodeMsg, .exc PyExcType.ValueError, false⟩)
  | _, _, _, .error e => .error e

/-- Data argument handed by `post` to the request: Python `None`, an
unencoded dict (when the message is falsy) or the JSON text produced by
`json.dumps`. -/
inductive PostData
  | pynone
  | dict (d : List (String × Json))
  | text (s : String)
  deriving Repr

/-- Embeds lines 203 to 204 of rest_client.py: `if message: message =
json.dumps(message)` — `None` and the empty dict are falsy and skip the
encoder, so they reach the request unencoded. -/
def postPayload (message : Option (List (String × Json))) : PostData :=
  match message with
  | none => .pynone
  | some [] => .dict []
  | some d => .text (Json.dump (.obj d))

/-- Message of the decode clause of `post`. -/
def postDecodeMsg : String := "No json object to be decoded from POST call."

/-- Message of the AttributeError clause of `post`. -/
def postAttrMsg : String := "Response object has no text attribute."

/-- Try-block body of `post`: the dispatcher call followed by
`json.loads(response.text)`.  The model's response always carries a text
field, so the AttributeError path cannot trigger here; its except clause is
still reproduced in `post`. -/
def postBody (transport : Except TransportExc Response) : Except PyErr Json :=
  match call transport with
  | .error e => .error (.rest e)
  | .ok resp =>
    match jsonLoads resp.text with
    | .error t => .error (.raw t)
    | .ok v => .ok v

/-- Embeds `post` of rest_client.py: message encoding per `postPayload`, the
try body above, and the except clauses — `RestCallException` re-raised,
ValueError and TypeError converted to the typed decode failure,
AttributeError to the missing-text failure.  The second component records
the data argument handed to the request. -/
def post (transport : Except TransportExc Response) (url : String)
    (headers : List (String × String)) (message : Option (List (String × Json))) :
    Except PyErr Json × PostData :=
  (match url, headers, postBody transport with
   | _, _, .ok v => .ok v
   | _, _, .error (.rest e) => .error (.rest e)
   | _, _, .error (.raw PyExcType.ValueError) =>
       .error (.rest ⟨some PyExcType.ValueError, postDecodeMsg, .exc PyExcType.ValueError, false⟩)
   | _, _, .error (.raw PyExcType.TypeError) =>
       .error (.rest ⟨some PyExcType.TypeError, postDecodeMsg, .exc PyExcType.TypeError, false⟩)
   | _, _, .error (.raw PyExcType.AttributeError) =>
       .error (.rest ⟨some PyExcType.AttributeError, postAttrMsg, .exc PyExcType.AttributeError, false⟩)
   | _, _, .error e => .error e,
   postPayload message)

/-- Filesystem model for the download path: an association list from file
path to byte contents. -/
abbrev Fs := List (String × List Nat)

/-- Lookup of a path in the filesystem model. -/
def fsLookup : Fs → String → Option (List Nat)
  | [], _ => none
  | (q, w) :: rest, p => if q = p then some w else fsLookup rest p

/-- Truth value of `os.path.exists` in the filesystem model. -/
def fsExists (fs : Fs) (p : String) : Bool :=
  (fsLookup fs p).isSome

/-- Writing a file: replaces the binding of the path. -/
def fsWrite : Fs → String → List Nat → Fs
  | [], p, v => [(p, v)]
  | (q, w) :: rest, p, v =>
    if q = p then (p, v) :: rest else (q, w) :: fsWrite rest p v

/-- Last path segment of a url. -/
def lastSegment (url : String) : String :=
  String.mk (url.toList.foldl (fun acc c => if c = '/' then [] else acc ++ [c]) [])

/-- Modelled from the spec: `filename_from_url` lives in batch_apps/utils.py,
which is not under src/; section 4.6 of the spec describes it as stripping
the url to its last path segment and applying the given extension when the
segment lacks one. -/
def filename_from_url (url : String) (ext : Option String) : String :=
  match ext with
  | none => lastSegment url
  | some e =>
    if (lastSegment url).toList.contains '.' then lastSegment url
    else lastSegment url ++ e

/-- Embeds line 307 of rest_client.py: `filename_from_url(url, ext) if not
f_name else f_name` — Python `None` and the empty string are falsy. -/
def resolveFilename (url : String) (f_name : Option String) (ext : Option String) : String :=
  match f_name with
  | none => filename_from_url url ext
  | some n => if n = "" then filename_from_url url ext else n

/-- Modelled from the spec: `os.path.join(output_path, filename)` — section 6
of the spec says download writes to the resolved filename under the output
path. -/
def pathJoin (p f : String) : String :=
  p ++ ("/") ++ f

/-- Embeds the chunk loop of `download` (lines 334 to 339): each chunk is
written in order until the first falsy (empty) chunk, which terminates the
loop unwritten; chunks after it are never consumed. -/
def writtenBytes : List (List Nat) → List Nat
  | [] => []
  | c :: rest => if c = [] then [] else c ++ writtenBytes rest

/-- Return value of `download`: Python `True` at the overwrite
short-circuit, otherwise the raw response. -/
inductive DownloadRet
  | skippedTrue
  | resp (r : Response)
  deriving Repr, DecidableEq

/-- Embeds `download` of rest_client.py.  The filesystem is an explicit
argument and result; the progress logging (lines 325 to 328 and 341 to
344) is side-effect-only and omitted; `block_size` only parametrises
`iter_content`, whose yielded chunks are already recorded in the response.
Opening the destination with mode wb creates or truncates it before the
dispatcher call; a dispatcher failure is re-raised (the EnvironmentError
clause of the source has no trigger in this model, whose file operations
always succeed).  The result carries the outcome, the final filesystem and
the number of network requests issued. -/
def download (fs : Fs) (transport : Except TransportExc Response) (url : String)
    (headers : List (String × String)) (output_path : String) (size : Int)
    (overwrite : Bool) (f_name : Option String) (ext : Option String)
    (block_size : Nat) : Except PyErr DownloadRet × Fs × Nat :=
  let downloadfile := pathJoin output_path (resolveFilename url f_name ext)
  if fsExists fs downloadfile && !overwrite then
    (.ok .skippedTrue, fs, 0)
  else
    let fs1 := fsWrite fs downloadfile []
    match call transport with
    | .error e => (.error (.rest e), fs1, 1)
    | .ok resp =>
      (.ok (.resp resp), fsWrite fs1 downloadfile (writtenBytes resp.chunks), 1)

/-- Concrete 200 response used by witnesses. -/
def respOk200 : Response :=
  ⟨200, [], "body", "https://host/api", []⟩

/-- Concrete 403 response used by witnesses. -/
def respForbidden : Response :=
  ⟨403, [], "denied", "https://host/api", []⟩

/-- Concrete template-free url used by witnesses. -/
def plainUrl : String := "https://host/files"

/-- Concrete filename used by witnesses. -/
def fNameEx : String := "file.txt"

/-- Concrete url whose template carries an unknown replacement field. -/
def urlUnknownField : String := "https://host/\x7bother\x7d"

/-- Concrete url whose template carries a misspelt replacement field. -/
def urlTypoField : String := "https://host/\x7bnaem\x7d"

/-- Concrete url whose template carries a positional replacement field. -/
def urlPositionalField : String := "https://host/\x7b\x7d"

/-- Concrete download url. -/
def dlUrl : String := "https://host/files/report.csv"

/-- Concrete output directory. -/
def outDir : String := "out"

/-- Concrete JSON object text with one member. -/
def jsonAB : String := "\x7b\"a\":1\x7d"

/-- Concrete 200 response whose body is the one-member JSON object. -/
def respJson : Response := ⟨200, [], jsonAB, plainUrl, []⟩

/-- Concrete 200 response with an empty body. -/
def respEmptyBody : Response := ⟨200, [], "", plainUrl, []⟩

/-- Concrete 200 response carrying a content-length header of 42. -/
def respCL42 : Response := ⟨200, [("Content-Length", "42")], "", plainUrl, []⟩

/-- Concrete 202 response without a content-length header. -/
def respNoCL : Response := ⟨202, [], "", plainUrl, []⟩

/-- Concrete 404 response. -/
def respNotFound : Response := ⟨404, [], "nf", dlUrl, []⟩

/-- Concrete streaming 200 response yielding the chunks ab, cd, empty. -/
def respChunked : Response := ⟨200, [], "", dlUrl, [[97, 98], [99, 100], []]⟩

/-- Failure the dispatcher produces at the concrete 404 response. -/
def err404 : RestCallException :=
  ⟨some PyExcType.OSError, msg404 respNotFound, .resp respNotFound, false⟩

end RestClient

namespace RestClient

/-- C1: for every dispatcher call that receives a transport response, status
200 or 202 returns the response unchanged; 400 fails as malformed-request
(ValueError kind, the invalid-API message); 401 as authentication; 403 as
not-applicable (kind None) with silent set; 404 as not-found (OSError kind);
any other status as the generic call failure; and among all failures the
silent flag is set exactly on status 403. -/
theorem c1_dispatcher_status_mapping (resp : Response) :
    ((resp.status_code = 200 ∨ resp.status_code = 202) → call (.ok resp) = .ok resp)
    ∧ (resp.status_code = 400 →
        call (.ok resp) = .error ⟨some .ValueError, msg400 resp, .resp resp, false⟩)
    ∧ (resp.status_code = 401 →
        call (.ok resp) = .error ⟨some .AuthenticationException, msg401, .resp resp, false⟩)
    ∧ (resp.status_code = 403 →
        call (.ok resp) = .error ⟨none, msg403 resp, .resp resp, true⟩)
    ∧ (resp.status_code = 404 →
        call (.ok resp) = .error ⟨some .OSError, msg404 resp, .resp resp, false⟩)
    ∧ (resp.status_code ≠ 200 → resp.status_code ≠ 202 → resp.status_code ≠ 400 →
        resp.status_code ≠ 401 → resp.status_code ≠ 403 → resp.status_code ≠ 404 →
        call (.ok resp) = .error ⟨some .ValueError, msgOther resp, .resp resp, false⟩)
    ∧ (∀ e, call (.ok resp) = .error e → (e.silent = true ↔ resp.status_code = 403))
    ∧ (call (.ok resp) = .ok resp ↔ (resp.status_code = 200 ∨ resp.status_code = 202)) := by
  refine ⟨?_, ?_, ?_, ?_, ?_, ?_, ?_, ?_⟩
  · intro h; simp [call, h]
  · intro h; simp [call, h]
  · intro h; simp [call, h]
  · intro h; simp [call, h]
  · intro h; simp [call, h]
  · intro h200 h202 h400 h401 h403 h404
    simp [call, h200, h202, h400, h401, h403, h404]
  · intro e he
    by_cases h200 : resp.status_code = 200
    · simp [call, h200] at he
    · by_cases h202 : resp.status_code = 202
      · simp [call, h202] at he
      · by_cases h400 : resp.status_code = 400
        · simp [call, h400] at he
          simp [← he, h400]
        · by_cases h401 : resp.status_code = 401
          · simp [call, h200, h202, h400, h401] at he
            simp [← he, h401]
          · by_cases h403 : resp.status_code = 403
            · simp [call, h200, h202, h400, h401, h403] at he
              simp [← he, h403]
            · by_cases h404 : resp.status_code = 404
              · simp [call, h200, h202, h400, h401, h403, h404] at he
                simp [← he, h404]
              · simp [call, h200, h202, h400, h401, h403, h404] at he
                simp [← he, h200, h202, h400, h401, h403, h404]
  · constructor
    · intro he
      by_cases h200 : resp.status_code = 200
      · exact Or.inl h200
      · by_cases h202 : resp.status_code = 202
        · exact Or.inr h202
        · by_cases h400 : resp.status_code = 400
          · simp [call, h200, h202, h400] at he
          · by_cases h401 : resp.status_code = 401
            · simp [call, h200, h202, h400, h401] at he
            · by_cases h403 : resp.status_code = 403
              · simp [call, h200, h202, h400, h401, h403] at he
              · by_cases h404 : resp.status_code = 404
                · simp [call, h200, h202, h400, h401, h403, h404] at he
                · simp [call, h200, h202, h400, h401, h403, h404] at he
    · intro h; simp [call, h]

/-- Witness for C1: at a concrete 200 response the dispatcher returns the
response, and at a concrete 403 response it fails silently with kind None. -/
theorem c1_dispatcher_status_mapping_witness :
    call (.ok respOk200) = .ok respOk200
    ∧ call (.ok respForbidden)
        = .error ⟨none, msg403 respForbidden, .resp respForbidden, true⟩ :=
  ⟨(c1_dispatcher_status_mapping respOk200).1 (Or.inl rfl),
   (c1_dispatcher_status_mapping respForbidden).2.2.2.1 rfl⟩

/-- Lookup after writing the same path in the filesystem model. -/
theorem fsLookup_fsWrite_self (fs : Fs) (p : String) (v : List Nat) :
    fsLookup (fsWrite fs p v) p = some v := by
  induction fs with
  | nil => simp [fsWrite, fsLookup]
  | cons hd rest ih =>
    obtain ⟨q, w⟩ := hd
    by_cases h : q = p
    · simp [fsWrite, h, fsLookup]
    · simp [fsWrite, h, fsLookup, ih]

/-- Existence after writing the same path in the filesystem model. -/
theorem fsExists_fsWrite_self (fs : Fs) (p : String) (v : List Nat) :
    fsExists (fsWrite fs p v) p = true := by
  simp [fsExists, fsLookup_fsWrite_self]

/-- C2 (code bug in `put`): called with a headers dict lacking the
Content-Type key, `put` lets the raw KeyError raised by
`put_headers.pop("Content-Type")` escape untyped — its except clauses only
convert RestCallException and IndexError — although its own docstring
documents RestCallException as the only failure it raises and the spec
requires every foreign exception to be converted at the wrapper
boundary. -/
theorem c2_put_raw_keyerror_escape :
    (put (.ok respOk200) plainUrl [] fNameEx [] []).1
      = .error (.raw PyExcType.KeyError) := by
  rfl

/-- C5 counterexample: with the template url carrying the unknown
replacement field `other`, the substitution fails with KeyError, yet `head`
does not fail with the malformed-url kind the claim requires — it produces
the missing-header failure, whose message speaks of the content-length key
although no response headers were ever inspected. -/
theorem c5_counterexample :
    pyFormatName urlUnknownField (url_from_filename fNameEx) = .error PyExcType.KeyError
    ∧ head (.ok respOk200) urlUnknownField [] fNameEx
        = .error (.rest ⟨some PyExcType.KeyError, headKeyErrorMsg, .exc PyExcType.KeyError, false⟩)
    ∧ (⟨some PyExcType.KeyError, headKeyErrorMsg, .exc PyExcType.KeyError, false⟩ : RestCallException)
        ≠ ⟨some PyExcType.IndexError, malformedUrlMsg, .exc PyExcType.IndexError, false⟩ := by
  refine ⟨rfl, rfl, ?_⟩
  decide

/-- C5 (amended): when the template substitution in `head` fails with an
IndexError (a positional replacement field), `head` fails with the
malformed-url kind; but when it fails with a KeyError (an unknown
replacement field name), `head` fails with the missing-header kind
instead — so the missing-header kind is not reserved to successful
responses lacking a content-length header. -/
theorem c5_head_substitution_failure_kinds (transport : Except TransportExc Response)
    (url : String) (headers : List (String × String)) (filename : String) :
    (pyFormatName url (url_from_filename filename) = .error PyExcType.IndexError →
        head transport url headers filename
          = .error (.rest ⟨some PyExcType.IndexError, malformedUrlMsg, .exc PyExcType.IndexError, false⟩))
    ∧ (pyFormatName url (url_from_filename filename) = .error PyExcType.KeyError →
        head transport url headers filename
          = .error (.rest ⟨some PyExcType.KeyError, headKeyErrorMsg, .exc PyExcType.KeyError, false⟩)) := by
  constructor <;> · intro h; simp [head, headBody, h]

/-- Witness for C5 (amended): the positional-field template yields the
malformed-url failure; the misspelt-field template yields the
missing-header failure. -/
theorem c5_head_substitution_failure_kinds_witness :
    head (.ok respOk200) urlPositionalField [] fNameEx
      = .error (.rest ⟨some PyExcType.IndexError, malformedUrlMsg, .exc PyExcType.IndexError, false⟩)
    ∧ head (.ok respOk200) urlTypoField [] fNameEx
      = .error (.rest ⟨some PyExcType.KeyError, headKeyErrorMsg, .exc PyExcType.KeyError, false⟩) :=
  ⟨(c5_head_substitution_failure_kinds (.ok respOk200) urlPositionalField [] fNameEx).1 rfl,
   (c5_head_substitution_failure_kinds (.ok respOk200) urlTypoField [] fNameEx).2 rfl⟩

/-- C6: when the substitution succeeds and the dispatcher returns a
response, a response without a content-length header makes `head` fail
with the missing-header failure, and a response whose content-length
header holds 42 makes `head` return the integer 42. -/
theorem c6_head_content_length (transport : Except TransportExc Response)
    (url : String) (headers : List (String × String)) (filename : String)
    (resp : Response) (u : String)
    (hfmt : pyFormatName url (url_from_filename filename) = .ok u)
    (hok : call transport = .ok resp) :
    (lookupHeader resp.headers contentLengthKey = none →
        head transport url headers filename
          = .error (.rest ⟨some PyExcType.KeyError, headKeyErrorMsg, .exc PyExcType.KeyError, false⟩))
    ∧ (lookupHeader resp.headers contentLengthKey = some ("42") →
        head transport url headers filename = .ok 42) := by
  constructor
  · intro h; simp [head, headBody, hfmt, hok, h]
  · intro h
    have h42 : pyInt ("42") = .ok 42 := rfl
    simp [head, headBody, hfmt, hok, h, h42]

/-- Witness for C6: a concrete 202 response without content-length fails
with the missing-header failure; a concrete 200 response with
content-length 42 (upper-case header key) returns 42. -/
theorem c6_head_content_length_witness :
    head (.ok respNoCL) plainUrl [] fNameEx
      = .error (.rest ⟨some PyExcType.KeyError, headKeyErrorMsg, .exc PyExcType.KeyError, false⟩)
    ∧ head (.ok respCL42) plainUrl [] fNameEx = .ok 42 :=
  ⟨(c6_head_content_length (.ok respNoCL) plainUrl [] fNameEx respNoCL plainUrl rfl rfl).1 rfl,
   (c6_head_content_length (.ok respCL42) plainUrl [] fNameEx respCL42 plainUrl rfl rfl).2 rfl⟩

/-- C7: for a get call whose dispatcher yields a response, a body that the
decoder rejects (the empty body included) makes get fail with the typed
decode failure wrapping the decoder's ValueError, and a body that decodes
to a value makes get return that value; in particular the one-member
object body decodes to the corresponding mapping. -/
theorem c7_get_json_decode (transport : Except TransportExc Response)
    (url : String) (headers : List (String × String)) (params : List (String × String))
    (resp : Response) (hok : call transport = .ok resp) :
    (jsonLoads resp.text = .error PyExcType.ValueError →
        get transport url headers params
          = .error (.rest ⟨some PyExcType.ValueError, getDecodeMsg, .exc PyExcType.ValueError, false⟩))
    ∧ (∀ v, jsonLoads resp.text = .ok v → get transport url headers params = .ok v)
    ∧ (resp.text = jsonAB →
        get transport url headers params = .ok (.obj [("a", Json.num 1)])) := by
  refine ⟨?_, ?_, ?_⟩
  · intro h; simp [get, getBody, hok, h]
  · intro v h; simp [get, getBody, hok, h]
  · intro h
    have hj : jsonLoads jsonAB = .ok (.obj [("a", Json.num 1)]) := by rfl
    simp [get, getBody, hok, h, hj]

/-- Witness for C7: the empty body fails with the typed decode failure; the
one-member object body returns the decoded mapping. -/
theorem c7_get_json_decode_witness :
    get (.ok respEmptyBody) plainUrl [] []
      = .error (.rest ⟨some PyExcType.ValueError, getDecodeMsg, .exc PyExcType.ValueError, false⟩)
    ∧ get (.ok respJson) plainUrl [] [] = .ok (.obj [("a", Json.num 1)]) :=
  ⟨(c7_get_json_decode (.ok respEmptyBody) plainUrl [] [] respEmptyBody rfl).1 rfl,
   (c7_get_json_decode (.ok respJson) plainUrl [] [] respJson rfl).2.2 rfl⟩

/-- C3: with overwrite false and an existing destination, download performs
zero network requests and reports success with the filesystem untouched;
with overwrite true it always issues the network request; and a first call
with overwrite false reports success, after which a second identical call
short-circuits to success with zero network requests. -/
theorem c3_download_overwrite_idempotence (fs : Fs)
    (transport : Except TransportExc Response) (url : String)
    (headers : List (String × String)) (output_path : String) (size : Int)
    (f_name : Option String) (ext : Option String) (block_size : Nat)
    (resp : Response) (hok : call transport = .ok resp) :
    (fsExists fs (pathJoin output_path (resolveFilename url f_name ext)) = true →
        download fs transport url headers output_path size false f_name ext block_size
          = (.ok .skippedTrue, fs, 0))
    ∧ (download fs transport url headers output_path size true f_name ext block_size).2.2 = 1
    ∧ (∃ r1, (download fs transport url headers output_path size false f_name ext block_size).1
          = .ok r1)
    ∧ download
        (download fs transport url headers output_path size false f_name ext block_size).2.1
        transport url headers output_path size false f_name ext block_size
        = (.ok .skippedTrue,
           (download fs transport url headers output_path size false f_name ext block_size).2.1,
           0) := by
  refine ⟨?_, ?_, ?_, ?_⟩
  · intro h
    simp [download, h]
  · simp [download, hok]
  · cases hfe : fsExists fs (pathJoin output_path (resolveFilename url f_name ext)) with
    | false => exact ⟨.resp resp, by simp [download, hfe, hok]⟩
    | true => exact ⟨.skippedTrue, by simp [download, hfe]⟩
  · cases hfe : fsExists fs (pathJoin output_path (resolveFilename url f_name ext)) with
    | false =>
        simp [download, hfe, hok, fsExists_fsWrite_self]
    | true =>
        simp [download, hfe]

/-- Witness for C3: after a first download to an empty filesystem, the
second identical call with overwrite false reports success, leaves the
filesystem alone and issues zero requests. -/
theorem c3_download_overwrite_idempotence_witness :
    download (download [] (.ok respChunked) dlUrl [] outDir 0 false none none 1024).2.1
        (.ok respChunked) dlUrl [] outDir 0 false none none 1024
      = (.ok .skippedTrue,
         (download [] (.ok respChunked) dlUrl [] outDir 0 false none none 1024).2.1, 0) :=
  (c3_download_overwrite_idempotence [] (.ok respChunked) dlUrl [] outDir 0
    none none 1024 respChunked rfl).2.2.2

/-- C4: whenever download proceeds (destination absent) and the streaming
response yields the chunks ab, cd, empty — possibly followed by further
chunks — the destination file holds exactly abcd afterwards: each
non-empty chunk is written in order and the first empty chunk terminates
the loop without being written. -/
theorem c4_download_chunk_loop (fs : Fs) (transport : Except TransportExc Response)
    (url : String) (headers : List (String × String)) (output_path : String)
    (size : Int) (overwrite : Bool) (f_name : Option String) (ext : Option String)
    (block_size : Nat) (resp : Response) (tail : List (List Nat))
    (hne : fsExists fs (pathJoin output_path (resolveFilename url f_name ext)) = false)
    (hok : call transport = .ok resp)
    (hch : resp.chunks = [97, 98] :: [99, 100] :: [] :: tail) :
    writtenBytes resp.chunks = [97, 98, 99, 100]
    ∧ fsLookup
        (download fs transport url headers output_path size overwrite f_name ext block_size).2.1
        (pathJoin output_path (resolveFilename url f_name ext))
      = some [97, 98, 99, 100] := by
  have hw : writtenBytes resp.chunks = [97, 98, 99, 100] := by
    simp [hch, writtenBytes]
  refine ⟨hw, ?_⟩
  simp [download, hne, hok, hw, fsLookup_fsWrite_self]

/-- Witness for C4: one concrete download of the chunk stream ab, cd, empty
leaves exactly abcd at the destination. -/
theorem c4_download_chunk_loop_witness :
    fsLookup (download [] (.ok respChunked) dlUrl [] outDir 0 false none none 1024).2.1
        (pathJoin outDir (resolveFilename dlUrl none none))
      = some [97, 98, 99, 100] :=
  (c4_download_chunk_loop [] (.ok respChunked) dlUrl [] outDir 0 false none none 1024
    respChunked [] rfl rfl rfl).2

/-- C8: whenever download proceeds past the overwrite check, it creates or
truncates the destination in binary-write mode before issuing the request;
if the dispatcher then fails, the failure is re-raised and an empty
truncated file remains at the destination — the filesystem is not left
unchanged on error. -/
theorem c8_download_truncates_before_request (fs : Fs)
    (transport : Except TransportExc Response) (url : String)
    (headers : List (String × String)) (output_path : String) (size : Int)
    (overwrite : Bool) (f_name : Option String) (ext : Option String)
    (block_size : Nat) (e : RestCallException)
    (hpr : (fsExists fs (pathJoin output_path (resolveFilename url f_name ext))
              && !overwrite) = false)
    (herr : call transport = .error e) :
    download fs transport url headers output_path size overwrite f_name ext block_size
      = (.error (.rest e),
         fsWrite fs (pathJoin output_path (resolveFilename url f_name ext)) [], 1)
    ∧ fsLookup
        (download fs transport url headers output_path size overwrite f_name ext block_size).2.1
        (pathJoin output_path (resolveFilename url f_name ext)) = some [] := by
  have h1 : download fs transport url headers output_path size overwrite f_name ext block_size
      = (.error (.rest e),
         fsWrite fs (pathJoin output_path (resolveFilename url f_name ext)) [], 1) := by
    simp [download, hpr, herr]
  exact ⟨h1, by simp [h1, fsLookup_fsWrite_self]⟩

/-- Witness for C8: a download hitting a 404 re-raises the dispatcher
failure and leaves an empty file at the destination. -/
theorem c8_download_truncates_before_request_witness :
    fsLookup (download [] (.ok respNotFound) dlUrl [] outDir 0 false none none 1024).2.1
        (pathJoin outDir (resolveFilename dlUrl none none)) = some [] :=
  (c8_download_truncates_before_request [] (.ok respNotFound) dlUrl [] outDir 0 false
    none none 1024 err404 rfl rfl).2

/-- C9: post JSON-encodes its message only when the message is truthy —
Python `None` and the empty dict are falsy, skip `json.dumps` and reach the
request unencoded, so the empty dict does not go out as the JSON text of an
empty object; a non-empty dict goes out as its `json.dumps` text. -/
theorem c9_post_falsy_message_unencoded (transport : Except TransportExc Response)
    (url : String) (headers : List (String × String)) :
    (post transport url headers (some [])).2 = .dict []
    ∧ (post transport url headers none).2 = .pynone
    ∧ (post transport url headers (some [])).2 ≠ .text (Json.dump (.obj []))
    ∧ (∀ d, d ≠ [] →
        (post transport url headers (some d)).2 = .text (Json.dump (.obj d))) := by
  refine ⟨rfl, rfl, ?_, ?_⟩
  · intro hc
    exact PostData.noConfusion hc
  · intro d hd
    match d with
    | [] => exact absurd rfl hd
    | x :: rest => rfl

/-- Witness for C9: a concrete non-empty message goes out as its JSON text,
and the concrete empty message goes out as the unencoded dict. -/
theorem c9_post_falsy_message_unencoded_witness :
    (post (.ok respJson) plainUrl [] (some [("x", Json.num 1)])).2
      = .text (Json.dump (.obj [("x", Json.num 1)]))
    ∧ (post (.ok respJson) plainUrl [] (some [])).2 = .dict [] :=
  ⟨(c9_post_falsy_message_unencoded (.ok respJson) plainUrl []).2.2.2
      [("x", Json.num 1)] (by simp),
   (c9_post_falsy_message_unencoded (.ok respJson) plainUrl []).1⟩

/-- C10: `put` copies the caller's headers with `dict(headers)` and pops
Content-Type from the copy only, so the caller's headers mapping is the
same after the call, whether `put` succeeds or fails. -/
theorem c10_put_headers_unchanged (transport : Except TransportExc Response)
    (url : String) (headers : List (String × String)) (userfileName : String)
    (description file_data : List (String × String)) :
    (put transport url headers userfileName description file_data).2 = headers := rfl

end RestClient
